import Mathlib

/-!
Verification of the hierarchical configuration resolution engine of
goedu-theta (package `internal/config`: `config.go`, `defaults.go`,
`types.go`).

The Go code is shallowly embedded as pure Lean functions:
- the process environment is a function `String → String` (the semantics of
  `os.Getenv`: an unset variable reads as the empty string);
- the file system is a function from path to `FileContent`, where a
  syntactically valid JSON document is modelled field-by-field as a tree of
  `JField`s (absent key / present well-typed value / present ill-typed
  value), mirroring what `encoding/json.Unmarshal` can observe: it validates
  syntax up front (a syntax error applies nothing), and on a type mismatch it
  records the error, skips that key and keeps decoding the rest;
- the dotenv source is the result of `godotenv.Read`: `none` models a read
  error (the code then substitutes an empty map);
- every `slog` call is modelled as an appended `(level, message)` log entry;
- the reflection walk of `OverrideFromEnv.processStruct` is embedded as a
  fold over the static field schema of `Config` in declared field order,
  with an explicit action for the pre-recursion "Processing nested struct"
  log and with the struct-typed, env-tagged fields (`LOGGER`, `SERVER`,
  `DATABASE`, `TEST`) reaching `setField`s unsupported-kind branch exactly
  as in the source.  (`reflect.Value.CanSet` is always true for the
  exported fields reached through the `*Config` receiver, so the
  cannot-set branch of `setField` is dead and not modelled.)
-/

namespace Goedu

/-- Log severity of a `slog` call. -/
inductive LogLevel
  | debug
  | info
  | warn
  | error
deriving DecidableEq, Repr

/-- One structured log record: severity and the literal message text. -/
abbrev LogEntry := LogLevel × String

/-! ## The configuration data model (`types.go`) -/

/-- Embeds struct `Logger` of `types.go`. -/
structure Logger where
  Level : String
  Format : String
  Output : String
  AddSource : Bool
deriving DecidableEq, Repr

/-- Embeds struct `Server` of `types.go`. -/
structure Server where
  Port : Int
  Host : String
  ReadTimeout : Int
  WriteTimeout : Int
  ShutdownTimeout : Int
deriving DecidableEq, Repr

/-- Embeds struct `Database` of `types.go`. -/
structure Database where
  Host : String
  Port : Int
  User : String
  Password : String
  Name : String
  IsAtlas : Bool
  AtlasAppName : String
deriving DecidableEq, Repr

/-- Embeds struct `Test` of `types.go`. -/
structure Test where
  Label_default : String
  Label_env : String
  Label_override : String
deriving DecidableEq, Repr

/-- Embeds struct `Config` of `types.go`. -/
structure Config where
  Environment : String
  Logger : Logger
  Server : Server
  Database : Database
  Test : Test
deriving DecidableEq, Repr

/-- The Go zero value of `Config` (`var cfg Config` in `NewConfig`). -/
def zeroConfig : Config :=
  { Environment := ""
    Logger := { Level := "", Format := "", Output := "", AddSource := false }
    Server := { Port := 0, Host := "", ReadTimeout := 0, WriteTimeout := 0,
                ShutdownTimeout := 0 }
    Database := { Host := "", Port := 0, User := "", Password := "",
                  Name := "", IsAtlas := false, AtlasAppName := "" }
    Test := { Label_default := "", Label_env := "", Label_override := "" } }

/-- Embeds `NewDefaultConfig` of `defaults.go` (the `slog.Logger` parameter
is used only for a debug log there and is dropped here). -/
def NewDefaultConfig : Config :=
  { Environment := "development"
    Logger := { Level := "debug", Format := "text", Output := "stdout",
                AddSource := true }
    Server := { Port := 8080, Host := "localhost", ReadTimeout := 30,
                WriteTimeout := 30, ShutdownTimeout := 15 }
    Database := { Host := "localhost", Port := 27017, User := "user",
                  Password := "pass", Name := "database", IsAtlas := false,
                  AtlasAppName := "" }
    Test := { Label_default := "", Label_env := "", Label_override := "" } }

/-! ## Go string coercions (`strconv.ParseBool`, `strconv.Atoi`) -/

/-- Embeds `strconv.ParseBool`: the exact lexical forms it accepts. -/
def goParseBool (s : String) : Option Bool :=
  if s = "1" ∨ s = "t" ∨ s = "T" ∨ s = "TRUE" ∨ s = "true" ∨ s = "True" then
    some true
  else if s = "0" ∨ s = "f" ∨ s = "F" ∨ s = "FALSE" ∨ s = "false" ∨ s = "False" then
    some false
  else
    none

/-- Decimal value of a digit list (most significant first). -/
def digitsVal (l : List Char) : Nat :=
  l.foldl (fun a c => a * 10 + (c.toNat - ('0').toNat)) 0

/-- Embeds `strconv.Atoi`: optional sign, then one or more base-10 digits,
nothing else; a value outside the 64-bit signed range is an error. -/
def goAtoi (s : String) : Option Int :=
  let cs := s.data
  let signed : Bool × List Char :=
    match cs with
    | '+' :: t => (false, t)
    | '-' :: t => (true, t)
    | t => (false, t)
  let neg := signed.1
  let ds := signed.2
  if ds.isEmpty then none
  else if ds.all Char.isDigit then
    let n : Nat := digitsVal ds
    if neg then
      if n ≤ 2 ^ 63 then some (-(n : Int)) else none
    else
      if n ≤ 2 ^ 63 - 1 then some ((n : Int)) else none
  else none

/-! ## JSON documents and `encoding/json.Unmarshal` merge semantics -/

/-- Status of one key of a parsed JSON document with respect to a target
field: absent, present with a well-typed value, or present with a value of
the wrong type (which `json.Unmarshal` reports as an `UnmarshalTypeError`
while skipping only that key). -/
inductive JField (α : Type)
  | absent
  | val (a : α)
  | illTyped
deriving DecidableEq, Repr

/-- Applying one document key to one target field: a present well-typed
value overwrites, an absent or ill-typed key leaves the prior value. -/
def appJF {α : Type} : JField α → α → α
  | .absent, old => old
  | .val a, _ => a
  | .illTyped, old => old

/-- Whether this key alone triggers an `UnmarshalTypeError`. -/
def errJF {α : Type} : JField α → Bool
  | .illTyped => true
  | _ => false

/-- The `logger` object of a JSON configuration document. -/
structure JLogger where
  level : JField String
  format : JField String
  output : JField String
  add_source : JField Bool
deriving DecidableEq, Repr

/-- The `server` object of a JSON configuration document. -/
structure JServer where
  port : JField Int
  host : JField String
  read_timeout : JField Int
  write_timeout : JField Int
  shutdown_timeout : JField Int
deriving DecidableEq, Repr

/-- The `database` object of a JSON configuration document. -/
structure JDatabase where
  host : JField String
  port : JField Int
  user : JField String
  password : JField String
  name : JField String
  is_atlas : JField Bool
  atlas_app_name : JField String
deriving DecidableEq, Repr

/-- The `test` object of a JSON configuration document. -/
structure JTest where
  label_def : JField String
  label_env : JField String
  label_override : JField String
deriving DecidableEq, Repr

/-- A syntactically valid JSON configuration document, keyed by the `json`
struct tags of `types.go`. -/
structure JDoc where
  environment : JField String
  logger : JField JLogger
  server : JField JServer
  database : JField JDatabase
  test : JField JTest
deriving DecidableEq, Repr

/-- The empty JSON object. -/
def emptyJDoc : JDoc :=
  { environment := .absent, logger := .absent, server := .absent,
    database := .absent, test := .absent }

/-- Merge of a parsed `logger` object onto the `Logger` section. -/
def mergeJLogger (j : JLogger) (l : Logger) : Logger :=
  { Level := appJF j.level l.Level
    Format := appJF j.format l.Format
    Output := appJF j.output l.Output
    AddSource := appJF j.add_source l.AddSource }

/-- Merge of a parsed `server` object onto the `Server` section. -/
def mergeJServer (j : JServer) (s : Server) : Server :=
  { Port := appJF j.port s.Port
    Host := appJF j.host s.Host
    ReadTimeout := appJF j.read_timeout s.ReadTimeout
    WriteTimeout := appJF j.write_timeout s.WriteTimeout
    ShutdownTimeout := appJF j.shutdown_timeout s.ShutdownTimeout }

/-- Merge of a parsed `database` object onto the `Database` section. -/
def mergeJDatabase (j : JDatabase) (d : Database) : Database :=
  { Host := appJF j.host d.Host
    Port := appJF j.port d.Port
    User := appJF j.user d.User
    Password := appJF j.password d.Password
    Name := appJF j.name d.Name
    IsAtlas := appJF j.is_atlas d.IsAtlas
    AtlasAppName := appJF j.atlas_app_name d.AtlasAppName }

/-- Merge of a parsed `test` object onto the `Test` section. -/
def mergeJTest (j : JTest) (t : Test) : Test :=
  { Label_default := appJF j.label_def t.Label_default
    Label_env := appJF j.label_env t.Label_env
    Label_override := appJF j.label_override t.Label_override }

/-- Merge of a nested object key: a present object merges recursively, an
absent or ill-typed key leaves the whole section untouched. -/
def mergeNested {α β : Type} (j : JField α) (m : α → β → β) (old : β) : β :=
  match j with
  | .val a => m a old
  | _ => old

/-- What `json.Unmarshal(data, cfg)` does to an existing `*Config` for a
syntactically valid document: every present well-typed key (at any depth)
overwrites its field, every other field keeps its prior value. -/
def mergeJSON (d : JDoc) (c : Config) : Config :=
  { Environment := appJF d.environment c.Environment
    Logger := mergeNested d.logger mergeJLogger c.Logger
    Server := mergeNested d.server mergeJServer c.Server
    Database := mergeNested d.database mergeJDatabase c.Database
    Test := mergeNested d.test mergeJTest c.Test }

/-- Whether a nested object key contributes an `UnmarshalTypeError`. -/
def errNested {α : Type} (j : JField α) (f : α → Bool) : Bool :=
  match j with
  | .illTyped => true
  | .val a => f a
  | .absent => false

/-- Whether decoding this document reports an error (the first
`UnmarshalTypeError` is returned after the whole document was processed). -/
def jDocErr (d : JDoc) : Bool :=
  errJF d.environment
    || errNested d.logger
        (fun j => errJF j.level || errJF j.format || errJF j.output
          || errJF j.add_source)
    || errNested d.server
        (fun j => errJF j.port || errJF j.host || errJF j.read_timeout
          || errJF j.write_timeout || errJF j.shutdown_timeout)
    || errNested d.database
        (fun j => errJF j.host || errJF j.port || errJF j.user
          || errJF j.password || errJF j.name || errJF j.is_atlas
          || errJF j.atlas_app_name)
    || errNested d.test
        (fun j => errJF j.label_def || errJF j.label_env
          || errJF j.label_override)

/-! ## The file system as seen by `LoadFromJSONFile` -/

/-- Observable content of a configuration file path: the error classes that
`os.ReadFile` and `json.Unmarshal` distinguish, or a parsed document. -/
inductive FileContent
  | missing
  | permDenied
  | ioErr
  | malformed
  | json (d : JDoc)

/-- Error classes returned by `LoadFromJSONFile`. -/
inductive LoadErr
  | notFound
  | permissionDenied
  | ioError
  | parseError
deriving DecidableEq, Repr

/-- Embeds `LoadFromJSONFile` of `config.go`: reads the file, distinguishes
not-found / permission / other I/O errors, rejects malformed JSON with the
target untouched (Go validates syntax before decoding), and for a valid
document merges by key presence — note that on an `UnmarshalTypeError` the
well-typed keys have already been applied to `cfg` and an error is still
returned.  Result: (updated config, error, log entries). -/
def LoadFromJSONFile (fc : FileContent) (cfg : Config) :
    Config × Option LoadErr × List LogEntry :=
  let attempt : LogEntry := (.debug, "Loading configuration from JSON file")
  match fc with
  | .missing =>
      (cfg, some .notFound,
        [attempt, (.debug, "Configuration file not found (this may be expected)")])
  | .permDenied =>
      (cfg, some .permissionDenied,
        [attempt, (.error, "Permission denied reading configuration file")])
  | .ioErr =>
      (cfg, some .ioError,
        [attempt, (.error, "I/O error reading configuration file")])
  | .malformed =>
      (cfg, some .parseError,
        [attempt, (.error, "Invalid JSON in configuration file")])
  | .json d =>
      if jDocErr d then
        (mergeJSON d cfg, some .parseError,
          [attempt, (.error, "Invalid JSON in configuration file")])
      else
        (mergeJSON d cfg, none,
          [attempt, (.debug, "Configuration successfully loaded from JSON file")])

/-! ## The static field schema (the shape `reflect` sees in `types.go`) -/

/-- The fields of `Config` visited by the reflective walk of
`OverrideFromEnv`, in declared order: every scalar leaf plus the four
struct-typed fields, which carry `env` tags of their own and reach
`setField`s unsupported-kind branch. -/
inductive FRef
  | rEnvironment
  | lLevel
  | lFormat
  | lOutput
  | lAddSource
  | rLogger
  | sPort
  | sHost
  | sReadTimeout
  | sWriteTimeout
  | sShutdownTimeout
  | rServer
  | dHost
  | dPort
  | dUser
  | dPassword
  | dName
  | dIsAtlas
  | dAtlasAppName
  | rDatabase
  | tLabelDef
  | tLabelEnv
  | tLabelOverride
  | rTest
deriving DecidableEq, Repr

/-- The `reflect.Kind` dispatch classes of `setField`. -/
inductive FKind
  | kString
  | kInt
  | kBool
  | kStruct
deriving DecidableEq, Repr

/-- A field value, for stating properties uniformly over all fields. -/
inductive FVal
  | vs (v : String)
  | vi (v : Int)
  | vb (v : Bool)
  | vLogger (v : Logger)
  | vServer (v : Server)
  | vDatabase (v : Database)
  | vTest (v : Test)
deriving DecidableEq, Repr

/-- The `reflect.Kind` of each field (`types.go`). -/
def kindOf : FRef → FKind
  | .rEnvironment => .kString
  | .lLevel => .kString
  | .lFormat => .kString
  | .lOutput => .kString
  | .lAddSource => .kBool
  | .rLogger => .kStruct
  | .sPort => .kInt
  | .sHost => .kString
  | .sReadTimeout => .kInt
  | .sWriteTimeout => .kInt
  | .sShutdownTimeout => .kInt
  | .rServer => .kStruct
  | .dHost => .kString
  | .dPort => .kInt
  | .dUser => .kString
  | .dPassword => .kString
  | .dName => .kString
  | .dIsAtlas => .kBool
  | .dAtlasAppName => .kString
  | .rDatabase => .kStruct
  | .tLabelDef => .kString
  | .tLabelEnv => .kString
  | .tLabelOverride => .kString
  | .rTest => .kStruct

/-- The `env` struct tag of each field (`types.go`). -/
def tagOf : FRef → String
  | .rEnvironment => "ENVIRONMENT"
  | .lLevel => "SLOG_LEVEL"
  | .lFormat => "SLOG_FORMAT"
  | .lOutput => "SLOG_OUTPUT"
  | .lAddSource => "SLOG_ADD_SOURCE"
  | .rLogger => "LOGGER"
  | .sPort => "SERVER_PORT"
  | .sHost => "SERVER_HOST"
  | .sReadTimeout => "SERVER_READ_TIMEOUT"
  | .sWriteTimeout => "SERVER_WRITE_TIMEOUT"
  | .sShutdownTimeout => "SERVER_SHUTDOWN_TIMEOUT"
  | .rServer => "SERVER"
  | .dHost => "DATABASE_HOST"
  | .dPort => "DATABASE_PORT"
  | .dUser => "DATABASE_USER"
  | .dPassword => "DATABASE_PASSWORD"
  | .dName => "DATABASE_NAME"
  | .dIsAtlas => "DATABASE_IS_ATLAS"
  | .dAtlasAppName => "DATABASE_ATLAS_APP_NAME"
  | .rDatabase => "DATABASE"
  | .tLabelDef => "TEST_LABEL_DEF"
  | .tLabelEnv => "TEST_LABEL_ENV"
  | .tLabelOverride => "TEST_LABEL_OVERRIDE"
  | .rTest => "TEST"

/-- Read one field of a configuration object. -/
def getF (c : Config) : FRef → FVal
  | .rEnvironment => .vs c.Environment
  | .lLevel => .vs c.Logger.Level
  | .lFormat => .vs c.Logger.Format
  | .lOutput => .vs c.Logger.Output
  | .lAddSource => .vb c.Logger.AddSource
  | .rLogger => .vLogger c.Logger
  | .sPort => .vi c.Server.Port
  | .sHost => .vs c.Server.Host
  | .sReadTimeout => .vi c.Server.ReadTimeout
  | .sWriteTimeout => .vi c.Server.WriteTimeout
  | .sShutdownTimeout => .vi c.Server.ShutdownTimeout
  | .rServer => .vServer c.Server
  | .dHost => .vs c.Database.Host
  | .dPort => .vi c.Database.Port
  | .dUser => .vs c.Database.User
  | .dPassword => .vs c.Database.Password
  | .dName => .vs c.Database.Name
  | .dIsAtlas => .vb c.Database.IsAtlas
  | .dAtlasAppName => .vs c.Database.AtlasAppName
  | .rDatabase => .vDatabase c.Database
  | .tLabelDef => .vs c.Test.Label_default
  | .tLabelEnv => .vs c.Test.Label_env
  | .tLabelOverride => .vs c.Test.Label_override
  | .rTest => .vTest c.Test

/-- `reflect.Value.SetString` on one field (string-kind fields only;
any other field is untouched — `setField` never reaches this case for
them). -/
def setStr (c : Config) (r : FRef) (s : String) : Config :=
  match r with
  | .rEnvironment => { c with Environment := s }
  | .lLevel => { c with Logger := { c.Logger with Level := s } }
  | .lFormat => { c with Logger := { c.Logger with Format := s } }
  | .lOutput => { c with Logger := { c.Logger with Output := s } }
  | .sHost => { c with Server := { c.Server with Host := s } }
  | .dHost => { c with Database := { c.Database with Host := s } }
  | .dUser => { c with Database := { c.Database with User := s } }
  | .dPassword => { c with Database := { c.Database with Password := s } }
  | .dName => { c with Database := { c.Database with Name := s } }
  | .dAtlasAppName => { c with Database := { c.Database with AtlasAppName := s } }
  | .tLabelDef => { c with Test := { c.Test with Label_default := s } }
  | .tLabelEnv => { c with Test := { c.Test with Label_env := s } }
  | .tLabelOverride => { c with Test := { c.Test with Label_override := s } }
  | _ => c

/-- `reflect.Value.SetInt` on one field (int-kind fields only). -/
def setIntF (c : Config) (r : FRef) (n : Int) : Config :=
  match r with
  | .sPort => { c with Server := { c.Server with Port := n } }
  | .sReadTimeout => { c with Server := { c.Server with ReadTimeout := n } }
  | .sWriteTimeout => { c with Server := { c.Server with WriteTimeout := n } }
  | .sShutdownTimeout => { c with Server := { c.Server with ShutdownTimeout := n } }
  | .dPort => { c with Database := { c.Database with Port := n } }
  | _ => c

/-- `reflect.Value.SetBool` on one field (bool-kind fields only). -/
def setBoolF (c : Config) (r : FRef) (b : Bool) : Config :=
  match r with
  | .lAddSource => { c with Logger := { c.Logger with AddSource := b } }
  | .dIsAtlas => { c with Database := { c.Database with IsAtlas := b } }
  | _ => c

/-- Embeds the `setField` closure of `OverrideFromEnv`: type-directed
assignment of a raw string to a field, returning the updated configuration,
the success flag, and the log entries it emits. -/
def setField (c : Config) (r : FRef) (value : String) :
    Config × Bool × List LogEntry :=
  match kindOf r with
  | .kString =>
      (setStr c r value, true,
        [(.debug, "Set string field from environment variable")])
  | .kBool =>
      match goParseBool value with
      | some b =>
          (setBoolF c r b, true,
            [(.debug, "Set boolean field from environment variable")])
      | none =>
          (c, false,
            [(.warn, "Invalid boolean value in environment variable")])
  | .kInt =>
      match goAtoi value with
      | some n =>
          (setIntF c r n, true,
            [(.debug, "Set integer field from environment variable")])
      | none =>
          (c, false,
            [(.warn, "Invalid integer value in environment variable")])
  | .kStruct =>
      (c, false,
        [(.warn, "Unsupported field type for environment variable override")])

/-! ## The environment override walk (`OverrideFromEnv`) -/

/-- Step 4 of `OverrideFromEnv`: resolve an override value for one `env`
tag — the process environment wins when non-empty, else the dotenv map
entry when present and non-empty, else no override. -/
def resolveOverride (env : String → String) (dm : String → Option String)
    (tag : String) : Option String :=
  if env tag ≠ "" then some (env tag)
  else
    match dm tag with
    | some v => if v ≠ "" then some v else none
    | none => none

/-- Processing of one tagged field (steps 4 and 5 of `OverrideFromEnv`):
resolve, then `setField`, with the surrounding log entries. -/
def stepLeaf (env : String → String) (dm : String → Option String)
    (r : FRef) (c : Config) : Config × List LogEntry :=
  match resolveOverride env dm (tagOf r) with
  | none => (c, [(.debug, "No environment override found for field")])
  | some v =>
      ((setField c r v).1,
        (.debug, "Applying environment variable override") ::
          (setField c r v).2.2 ++
            (if (setField c r v).2.1 then
              [(.info, "Successfully applied environment variable override")]
            else
              [(.warn, "Failed to apply environment variable override")]))

/-- One action of the flattened reflective walk: either the pre-recursion
log of a nested struct field, or the processing of one tagged field. -/
inductive WalkAction
  | enterStruct (nm : String)
  | leaf (r : FRef)

/-- The walk of `processStruct` over `Config`, flattened in execution
order: for each struct-typed field the nested-struct log comes first, then
its children in declared order, then the override attempt on the struct
field itself (its `env` tag is non-empty, so it is not skipped). -/
def walkActions : List WalkAction :=
  [ .leaf .rEnvironment,
    .enterStruct "Logger",
    .leaf .lLevel, .leaf .lFormat, .leaf .lOutput, .leaf .lAddSource,
    .leaf .rLogger,
    .enterStruct "Server",
    .leaf .sPort, .leaf .sHost, .leaf .sReadTimeout, .leaf .sWriteTimeout,
    .leaf .sShutdownTimeout,
    .leaf .rServer,
    .enterStruct "Database",
    .leaf .dHost, .leaf .dPort, .leaf .dUser, .leaf .dPassword,
    .leaf .dName, .leaf .dIsAtlas, .leaf .dAtlasAppName,
    .leaf .rDatabase,
    .enterStruct "Test",
    .leaf .tLabelDef, .leaf .tLabelEnv, .leaf .tLabelOverride,
    .leaf .rTest ]

/-- Execute one walk action on the accumulated (config, logs) state. -/
def doAction (env : String → String) (dm : String → Option String)
    (st : Config × List LogEntry) (a : WalkAction) : Config × List LogEntry :=
  match a with
  | .enterStruct _ => (st.1, st.2 ++ [(.debug, "Processing nested struct")])
  | .leaf r =>
      ((stepLeaf env dm r st.1).1, st.2 ++ (stepLeaf env dm r st.1).2)

/-- Embeds the recursive `processStruct` of `OverrideFromEnv` as a fold
over the static field schema in execution order. -/
def processStruct (env : String → String) (dm : String → Option String)
    (c : Config) : Config × List LogEntry :=
  walkActions.foldl (doAction env dm) (c, [])

/-- Embeds `OverrideFromEnv` of `config.go`.  `dotenv` is the result of
`godotenv.Read`: `none` models a read failure, after which the code
substitutes an empty map and continues.  Returns the updated configuration,
the returned error (textual), and the log entries.  The function has a
single `return nil`, so the error component is always `none`. -/
def OverrideFromEnv (dotenv : Option (String → Option String))
    (env : String → String) (c : Config) :
    Config × Option String × List LogEntry :=
  let preLogs : List LogEntry :=
    [(.debug, "Starting environment variable override process"),
     (.debug, "Loading .env file for environment variable defaults")]
  let dm : String → Option String :=
    match dotenv with
    | none => fun _ => none
    | some m => m
  let dLogs : List LogEntry :=
    match dotenv with
    | none =>
        [(.warn, "Could not load .env file - will only use system environment variables")]
    | some _ => [(.debug, "Successfully loaded .env file")]
  ((processStruct env dm c).1, none,
    preLogs ++ dLogs ++
      [(.debug, "Starting recursive struct field processing")] ++
      (processStruct env dm c).2 ++
      [(.debug, "Environment variable override processing completed successfully")])

/-! ## The source orchestrator (`NewConfig`) -/

/-- The environments accepted by the validation switch of `NewConfig`. -/
def validEnvironments : List String :=
  ["development", "test", "staging", "production"]

/-- Step 2 of `NewConfig`: the validation switch on the `ENVIRONMENT`
variable — any value outside the fixed set (including the empty string of
an unset variable) falls to the `development` default. -/
def determineEnvironment (raw : String) : String :=
  if raw ∈ validEnvironments then raw else "development"

/-- `base_config_file` of `NewConfig`:
`config_folder + config_file_name + config_file_extension`. -/
def base_config_file : String := "configs/" ++ "config" ++ ".json"

/-- `environment_config_file` of `NewConfig`:
`config_folder + config_file_name + "." + environment + config_file_extension`. -/
def environment_config_file (environment : String) : String :=
  "configs/" ++ "config" ++ "." ++ environment ++ ".json"

/-- `local_config_file` of `NewConfig`:
`config_folder + config_file_name + "." + config_local_string + config_file_extension`. -/
def local_config_file : String := "configs/" ++ "config" ++ "." ++ "local" ++ ".json"

/-- Embeds `NewConfig` of `config.go`.  Inputs: the process environment
(`os.Getenv` semantics), the file system, and the `godotenv.Read` result
for `.env`.  Output: the configuration (or `none` on the fatal paths) and
the log entries.  The configuration starts as the zero value of `Config`
with only `Environment` set, then the three file layers are applied (the
base one fatally, the other two tolerantly, keeping whatever a failed
merge already wrote), then the environment overrides. -/
def NewConfig (env : String → String) (fs : String → FileContent)
    (dotenv : Option (String → Option String)) :
    Option Config × List LogEntry :=
  let environment0 := env "ENVIRONMENT"
  let eLogs : List LogEntry :=
    [(.debug, "Loading configuration"),
     (.debug, "Loading environment variable"),
     (.debug, "Environment variable loaded")] ++
    (if environment0 ∈ validEnvironments then
      [(.debug, "Valid environment detected")]
    else
      [(.warn, "Invalid or unset environment variable, defaulting to development")]) ++
    [(.debug, "Setting environment"),
     (.debug, "Configuration file paths")]
  let environment := determineEnvironment environment0
  let cfg0 : Config := { zeroConfig with Environment := environment }
  let t1 := LoadFromJSONFile (fs base_config_file) cfg0
  if (t1.2.1).isSome then
    (none,
      eLogs ++ t1.2.2 ++
        [(.error, "Error loading base configuration - application cannot start")])
  else
    let t2 := LoadFromJSONFile (fs (environment_config_file environment)) t1.1
    let w2 : List LogEntry :=
      if (t2.2.1).isSome then
        [(.warn, "Unable to load environment-specific configuration - using base config")]
      else []
    let t3 := LoadFromJSONFile (fs local_config_file) t2.1
    let w3 : List LogEntry :=
      if (t3.2.1).isSome then
        [(.debug, "Unable to load local configuration - this is normal for non-development environments")]
      else []
    let t4 := OverrideFromEnv dotenv env t3.1
    match t4.2.1 with
    | some _ =>
        (none,
          eLogs ++ t1.2.2 ++ t2.2.2 ++ w2 ++ t3.2.2 ++ w3 ++ t4.2.2 ++
            [(.error, "Error applying environment variable overrides")])
    | none =>
        (some t4.1,
          eLogs ++ t1.2.2 ++ t2.2.2 ++ w2 ++ t3.2.2 ++ w3 ++ t4.2.2 ++
            [(.debug, "Configuration successfully loaded and merged from all sources")])

/-- The configuration produced by the three file layers of `NewConfig`
alone, before the environment-override step (`none` when the mandatory
base layer fails). -/
def fileLayer (env : String → String) (fs : String → FileContent) :
    Option Config :=
  let environment := determineEnvironment (env "ENVIRONMENT")
  let cfg0 : Config := { zeroConfig with Environment := environment }
  let t1 := LoadFromJSONFile (fs base_config_file) cfg0
  if (t1.2.1).isSome then none
  else
    let t2 := LoadFromJSONFile (fs (environment_config_file environment)) t1.1
    let t3 := LoadFromJSONFile (fs local_config_file) t2.1
    some t3.1

/-- Whether `LoadFromJSONFile` reports an error for this file content. -/
def fileFails : FileContent → Bool
  | .json d => jDocErr d
  | _ => true

/-- The dotenv mapping actually used by `OverrideFromEnv`: the parsed map,
or the empty map substituted after a `godotenv.Read` failure. -/
def dotenvMapOf (dotenv : Option (String → Option String)) :
    String → Option String :=
  match dotenv with
  | none => fun _ => none
  | some m => m

/-! ## Per-field characterization of the override walk -/

/-- Pure value-level form of the coercion performed by `setField` (the Type
Coercer of the spec): what a raw string yields for a field of a given kind,
`none` on parse failure or unsupported kind. -/
def coerceVal : FKind → String → Option FVal
  | .kString, v => some (.vs v)
  | .kInt, v => (goAtoi v).map .vi
  | .kBool, v => (goParseBool v).map .vb
  | .kStruct, _ => none

/-- Value-level effect of one `setField` call: the coerced value on
success, the prior value on failure. -/
def ovApply (k : FKind) (raw : String) (old : FVal) : FVal :=
  match coerceVal k raw with
  | some v => v
  | none => old

/-- Value-level effect of the whole override step on one field: resolve an
override value per the precedence chain, then coerce-or-keep. -/
def ovVal (env : String → String) (dm : String → Option String)
    (r : FRef) (old : FVal) : FVal :=
  match resolveOverride env dm (tagOf r) with
  | none => old
  | some raw => ovApply (kindOf r) raw old

/-- The configuration component of one walk action. -/
def doActionCfg (env : String → String) (dm : String → Option String)
    (c : Config) (a : WalkAction) : Config :=
  match a with
  | .enterStruct _ => c
  | .leaf r => (stepLeaf env dm r c).1

/-- The well-typed value of a present key, if any. -/
def jfToOpt {α : Type} : JField α → Option α
  | .val a => some a
  | _ => none

/-- Whether a scalar field has a present, well-typed key in the document
(for nested fields: the section key is a present object and the leaf key is
present and well-typed inside it), and its value. -/
def jPresent (d : JDoc) : FRef → Option FVal
  | .rEnvironment => (jfToOpt d.environment).map .vs
  | .lLevel =>
      ((jfToOpt d.logger).bind (fun j => jfToOpt j.level)).map .vs
  | .lFormat =>
      ((jfToOpt d.logger).bind (fun j => jfToOpt j.format)).map .vs
  | .lOutput =>
      ((jfToOpt d.logger).bind (fun j => jfToOpt j.output)).map .vs
  | .lAddSource =>
      ((jfToOpt d.logger).bind (fun j => jfToOpt j.add_source)).map .vb
  | .rLogger => none
  | .sPort =>
      ((jfToOpt d.server).bind (fun j => jfToOpt j.port)).map .vi
  | .sHost =>
      ((jfToOpt d.server).bind (fun j => jfToOpt j.host)).map .vs
  | .sReadTimeout =>
      ((jfToOpt d.server).bind (fun j => jfToOpt j.read_timeout)).map .vi
  | .sWriteTimeout =>
      ((jfToOpt d.server).bind (fun j => jfToOpt j.write_timeout)).map .vi
  | .sShutdownTimeout =>
      ((jfToOpt d.server).bind (fun j => jfToOpt j.shutdown_timeout)).map .vi
  | .rServer => none
  | .dHost =>
      ((jfToOpt d.database).bind (fun j => jfToOpt j.host)).map .vs
  | .dPort =>
      ((jfToOpt d.database).bind (fun j => jfToOpt j.port)).map .vi
  | .dUser =>
      ((jfToOpt d.database).bind (fun j => jfToOpt j.user)).map .vs
  | .dPassword =>
      ((jfToOpt d.database).bind (fun j => jfToOpt j.password)).map .vs
  | .dName =>
      ((jfToOpt d.database).bind (fun j => jfToOpt j.name)).map .vs
  | .dIsAtlas =>
      ((jfToOpt d.database).bind (fun j => jfToOpt j.is_atlas)).map .vb
  | .dAtlasAppName =>
      ((jfToOpt d.database).bind (fun j => jfToOpt j.atlas_app_name)).map .vs
  | .rDatabase => none
  | .tLabelDef =>
      ((jfToOpt d.test).bind (fun j => jfToOpt j.label_def)).map .vs
  | .tLabelEnv =>
      ((jfToOpt d.test).bind (fun j => jfToOpt j.label_env)).map .vs
  | .tLabelOverride =>
      ((jfToOpt d.test).bind (fun j => jfToOpt j.label_override)).map .vs
  | .rTest => none

/-! ## Concrete inputs used by witnesses and counterexamples -/

/-- An empty process environment (every `os.Getenv` call returns ""). -/
def envEmpty : String → String := fun _ => ""

/-- A file system with no configuration files at all. -/
def fsAllMissing : String → FileContent := fun _ => .missing

/-- A file system whose base file is the empty JSON object and where every
other file is missing. -/
def fsBaseEmpty : String → FileContent :=
  fun p => if p = "configs/config.json" then .json emptyJDoc else .missing

/-- A process environment that sets only `SERVER_PORT`, to a value that is
not a number. -/
def envPortAbc : String → String :=
  fun k => if k = "SERVER_PORT" then "abc" else ""

/-- A `server` JSON object that sets only the port. -/
def jServerPort (n : Int) : JServer :=
  { port := .val n, host := .absent, read_timeout := .absent,
    write_timeout := .absent, shutdown_timeout := .absent }

/-- A base document that sets only `server.port`. -/
def docPort (n : Int) : JDoc := { emptyJDoc with server := .val (jServerPort n) }

/-- A file system whose base file sets only `server.port`. -/
def fsPort (n : Int) : String → FileContent :=
  fun p => if p = "configs/config.json" then .json (docPort n) else .missing

/-- A process environment that sets only `SERVER_PORT`, to "7070". -/
def envPort7070 : String → String :=
  fun k => if k = "SERVER_PORT" then "7070" else ""

/-- A process environment that sets only `SLOG_LEVEL`, to "warn". -/
def envLevelWarn : String → String :=
  fun k => if k = "SLOG_LEVEL" then "warn" else ""

/-- A dotenv mapping holding only `SLOG_FORMAT=json`. -/
def dmFormatJson : String → Option String :=
  fun k => if k = "SLOG_FORMAT" then some "json" else none

/-- A process environment that sets only `ENVIRONMENT`, to the invalid
value "prod". -/
def envProd : String → String :=
  fun k => if k = "ENVIRONMENT" then "prod" else ""

/-- A `server` JSON object with an ill-typed port key and a well-typed
host key. -/
def jServerBad : JServer :=
  { port := .illTyped, host := .val "h9", read_timeout := .absent,
    write_timeout := .absent, shutdown_timeout := .absent }

/-- A document that is valid JSON but has one key whose value has the
wrong type for its field (`server.port`), next to a well-typed key
(`server.host`). -/
def dBad : JDoc := { emptyJDoc with server := .val jServerBad }

/-- A file system with an empty base file and an environment-specific file
(for the default `development` mode) equal to `dBad`. -/
def fsEnvBad : String → FileContent :=
  fun p =>
    if p = "configs/config.json" then .json emptyJDoc
    else if p = "configs/config.development.json" then .json dBad
    else .missing

/-- A file system with an empty base file, a malformed environment file
and a missing local file. -/
def fsEnvMalformed : String → FileContent :=
  fun p =>
    if p = "configs/config.json" then .json emptyJDoc
    else if p = "configs/config.development.json" then .malformed
    else .missing

/-- The zero configuration with the environment set to `development` — the
object `NewConfig` actually starts from when `ENVIRONMENT` is unset. -/
def zeroDev : Config := { zeroConfig with Environment := "development" }

/-- The configuration `NewConfig` resolves from an empty-object base file,
`SLOG_LEVEL=warn` in the process environment and `SLOG_FORMAT=json` in the
dotenv mapping. -/
def cWitC4 : Config :=
  { zeroConfig with
      Environment := "development"
      Logger := { Level := "warn", Format := "json", Output := "",
                  AddSource := false } }

/-- A document whose `logger` object sets `level` to the empty string,
omits `format` and `add_source`, and has an ill-typed `output` key. -/
def dWitC5 : JDoc :=
  { emptyJDoc with
      logger := .val { level := .val "", format := .absent,
                       output := .illTyped, add_source := .absent } }

/-- A scalar (non-section) field is untouched by `SetString` on a different
field.  (A section field such as `Logger` is excluded: it is a composite of
its children, so writing a child does change its value.) -/
theorem getF_setStr_other (c : Config) (r r' : FRef) (s : String)
    (h : r ≠ r') (hk : kindOf r ≠ .kStruct) :
    getF (setStr c r' s) r = getF c r := by
  cases r <;> cases r' <;> simp_all [getF, setStr, kindOf]

/-- A scalar field is untouched by `SetInt` on a different field. -/
theorem getF_setIntF_other (c : Config) (r r' : FRef) (n : Int)
    (h : r ≠ r') (hk : kindOf r ≠ .kStruct) :
    getF (setIntF c r' n) r = getF c r := by
  cases r <;> cases r' <;> simp_all [getF, setIntF, kindOf]

/-- A scalar field is untouched by `SetBool` on a different field. -/
theorem getF_setBoolF_other (c : Config) (r r' : FRef) (b : Bool)
    (h : r ≠ r') (hk : kindOf r ≠ .kStruct) :
    getF (setBoolF c r' b) r = getF c r := by
  cases r <;> cases r' <;> simp_all [getF, setBoolF, kindOf]

/-- A scalar field is untouched by the override step of a different
field. -/
theorem stepLeaf_fst_other (env : String → String)
    (dm : String → Option String) (c : Config) (r r' : FRef)
    (h : r ≠ r') (hk : kindOf r ≠ .kStruct) :
    getF (stepLeaf env dm r' c).1 r = getF c r := by
  unfold stepLeaf
  cases hrv : resolveOverride env dm (tagOf r') with
  | none => rfl
  | some v =>
      simp only
      unfold setField
      cases hk2 : kindOf r' with
      | kString => simpa using getF_setStr_other c r r' v h hk
      | kInt =>
          cases goAtoi v with
          | none => rfl
          | some n => simpa using getF_setIntF_other c r r' n h hk
      | kBool =>
          cases goParseBool v with
          | none => rfl
          | some b => simpa using getF_setBoolF_other c r r' b h hk
      | kStruct => rfl

/-- Effect of the override step of a field on that field itself. -/
theorem stepLeaf_fst_self (env : String → String)
    (dm : String → Option String) (c : Config) (r : FRef) :
    getF (stepLeaf env dm r c).1 r = ovVal env dm r (getF c r) := by
  unfold stepLeaf ovVal
  cases hrv : resolveOverride env dm (tagOf r) with
  | none => rfl
  | some v =>
      simp only
      unfold setField ovApply coerceVal
      cases r <;>
        simp [kindOf, getF, setStr, setIntF, setBoolF] <;>
        first
          | (cases goAtoi v <;> simp [getF, setIntF])
          | (cases goParseBool v <;> simp [getF, setBoolF])

theorem doAction_fst (env : String → String) (dm : String → Option String)
    (st : Config × List LogEntry) (a : WalkAction) :
    (doAction env dm st a).1 = doActionCfg env dm st.1 a := by
  cases a <;> rfl

theorem foldl_doAction_fst (env : String → String)
    (dm : String → Option String) (l : List WalkAction) :
    ∀ (p : Config × List LogEntry),
      (l.foldl (doAction env dm) p).1 =
        l.foldl (doActionCfg env dm) p.1 := by
  induction l with
  | nil => intro p; rfl
  | cons a t ih =>
      intro p
      rw [List.foldl_cons, List.foldl_cons, ih (doAction env dm p a),
        doAction_fst]

/-- Per-field characterization of the override walk: on every scalar field
the walk acts exactly as resolve-then-coerce-or-keep, independently of all
other fields. -/
theorem processStruct_getF (env : String → String)
    (dm : String → Option String) (c : Config) (r : FRef)
    (hk : kindOf r ≠ .kStruct) :
    getF (processStruct env dm c).1 r = ovVal env dm r (getF c r) := by
  have hfold := foldl_doAction_fst env dm walkActions (c, [])
  rw [processStruct, hfold]
  cases r <;>
    simp_all [walkActions, List.foldl_cons, List.foldl_nil, doActionCfg,
      stepLeaf_fst_self, stepLeaf_fst_other, kindOf]

/-- `OverrideFromEnv` has a single `return nil`: its error is always
`nil`. -/
theorem OverrideFromEnv_err (dotenv : Option (String → Option String))
    (env : String → String) (c : Config) :
    (OverrideFromEnv dotenv env c).2.1 = none := rfl

theorem OverrideFromEnv_fst (dotenv : Option (String → Option String))
    (env : String → String) (c : Config) :
    (OverrideFromEnv dotenv env c).1 =
      (processStruct env (dotenvMapOf dotenv) c).1 := by
  cases dotenv <;> simp only [OverrideFromEnv, dotenvMapOf]

/-- `NewConfig` is the file-layer merge followed by the environment
override pass; the mandatory base layer is the only `none` source. -/
theorem NewConfig_fst (env : String → String) (fs : String → FileContent)
    (dotenv : Option (String → Option String)) :
    (NewConfig env fs dotenv).1 =
      (fileLayer env fs).map (fun c3 => (OverrideFromEnv dotenv env c3).1) := by
  simp only [NewConfig, fileLayer]
  by_cases h : (LoadFromJSONFile (fs base_config_file)
      { zeroConfig with
          Environment := determineEnvironment (env "ENVIRONMENT") }).2.1.isSome
  · simp [h]
  · simp [h, OverrideFromEnv_err]

/-- `LoadFromJSONFile` reports an error exactly when the file is missing,
unreadable, malformed, or contains a type-mismatched key. -/
theorem LoadFromJSONFile_err_isSome (fc : FileContent) (c : Config) :
    ((LoadFromJSONFile fc c).2.1).isSome = fileFails fc := by
  cases fc with
  | json d => by_cases h : jDocErr d <;> simp [LoadFromJSONFile, fileFails, h]
  | missing => rfl
  | permDenied => rfl
  | ioErr => rfl
  | malformed => rfl

/-- For a syntactically valid document the target reflects the full
key-presence merge — also when an error is reported. -/
theorem LoadFromJSONFile_fst_json (d : JDoc) (c : Config) :
    (LoadFromJSONFile (.json d) c).1 = mergeJSON d c := by
  by_cases h : jDocErr d <;> simp [LoadFromJSONFile, h]

/-- A non-json file content leaves the target untouched. -/
theorem LoadFromJSONFile_fst_nonjson (fc : FileContent) (c : Config)
    (h : ∀ d, fc ≠ .json d) : (LoadFromJSONFile fc c).1 = c := by
  cases fc with
  | json d => exact absurd rfl (h d)
  | missing => rfl
  | permDenied => rfl
  | ioErr => rfl
  | malformed => rfl

theorem fileLayer_none_of_fail (env : String → String)
    (fs : String → FileContent)
    (h : fileFails (fs base_config_file) = true) : fileLayer env fs = none := by
  simp [fileLayer, LoadFromJSONFile_err_isSome, h]

theorem fileLayer_isSome (env : String → String) (fs : String → FileContent)
    (h : fileFails (fs base_config_file) = false) :
    (fileLayer env fs).isSome = true := by
  simp [fileLayer, LoadFromJSONFile_err_isSome, h]

theorem newConfig_none_of_base_fail (env : String → String)
    (fs : String → FileContent) (dotenv : Option (String → Option String))
    (h : fileFails (fs base_config_file) = true) :
    (NewConfig env fs dotenv).1 = none := by
  rw [NewConfig_fst, fileLayer_none_of_fail env fs h]; rfl

theorem newConfig_isSome_of_base (env : String → String)
    (fs : String → FileContent) (dotenv : Option (String → Option String))
    (h : fileFails (fs base_config_file) = false) :
    ((NewConfig env fs dotenv).1).isSome = true := by
  rw [NewConfig_fst]
  obtain ⟨c3, hc3⟩ := Option.isSome_iff_exists.mp (fileLayer_isSome env fs h)
  rw [hc3]; rfl

/-- Key-presence semantics of one top-level key. -/
theorem appJF_top {α : Type} (j : JField α) (emb : α → FVal) (old : α) :
    (∀ v, (jfToOpt j).map emb = some v → emb (appJF j old) = v) ∧
    ((jfToOpt j).map emb = none → emb (appJF j old) = emb old) := by
  cases j <;> simp [jfToOpt, appJF]

/-- Key-presence semantics of one leaf key inside a nested section key. -/
theorem appJF_nested {σ β α : Type} (j : JField σ) (leaf : σ → JField α)
    (msec : σ → β → β) (proj : β → α) (emb : α → FVal) (old : β)
    (hcomm : ∀ s b, proj (msec s b) = appJF (leaf s) (proj b)) :
    (∀ v, (((jfToOpt j).bind (fun s => jfToOpt (leaf s))).map emb) = some v →
        emb (proj (mergeNested j msec old)) = v) ∧
    ((((jfToOpt j).bind (fun s => jfToOpt (leaf s))).map emb) = none →
        emb (proj (mergeNested j msec old)) = emb (proj old)) := by
  cases j with
  | absent => simp [jfToOpt, mergeNested]
  | illTyped => simp [jfToOpt, mergeNested]
  | val s =>
      have h := appJF_top (leaf s) emb (proj old)
      simpa [jfToOpt, mergeNested, hcomm] using h

/-! ## The claims -/

/-- C1: the claim says that before any source is applied `NewConfig`
initializes the configuration to the compiled-in defaults, so that a field
mentioned by no source resolves to its default and never to a zero value.
The code contradicts this (and the documented role of `NewDefaultConfig`):
`NewConfig` starts from the zero-value `Config` with only `Environment`
set and never calls `NewDefaultConfig`.  Evaluation at the failing input —
`ENVIRONMENT` unset, base file the empty JSON object, every other source
absent — shows every unmentioned field resolves to its zero value, while
`NewDefaultConfig` holds the documented defaults. -/
theorem C1_newConfig_starts_from_zero_not_defaults :
    (NewConfig envEmpty fsBaseEmpty none).1 = some zeroDev ∧
    NewDefaultConfig.Logger.Level = "debug" ∧
    NewDefaultConfig.Logger.Format = "text" ∧
    NewDefaultConfig.Logger.Output = "stdout" ∧
    NewDefaultConfig.Logger.AddSource = true ∧
    NewDefaultConfig.Server.Port = 8080 ∧
    NewDefaultConfig.Server.Host = "localhost" ∧
    zeroDev.Logger.Level = "" ∧
    zeroDev.Logger.AddSource = false ∧
    zeroDev.Server.Port = 0 ∧
    zeroDev.Server.Host = "" ∧
    zeroDev ≠ NewDefaultConfig := by
  refine ⟨by decide, rfl, rfl, rfl, rfl, rfl, rfl, rfl, rfl, rfl, rfl, by decide⟩

/-- C2: a failing base file (missing, unreadable, or malformed) makes
`NewConfig` return an error and no configuration object, and the base file
is the only source whose failure can do so: whenever the base file loads,
`NewConfig` succeeds regardless of every other source. -/
theorem C2_base_file_fatality (env : String → String)
    (fs : String → FileContent) (dotenv : Option (String → Option String)) :
    (fileFails (fs base_config_file) = true →
      (NewConfig env fs dotenv).1 = none) ∧
    (fileFails (fs base_config_file) = false →
      ((NewConfig env fs dotenv).1).isSome = true) :=
  ⟨fun h => newConfig_none_of_base_fail env fs dotenv h,
   fun h => newConfig_isSome_of_base env fs dotenv h⟩

/-- Witness for C2 at concrete inputs: a missing base file yields no
configuration; an empty-object base file yields one. -/
theorem C2_witness :
    (NewConfig envEmpty fsAllMissing none).1 = none ∧
    ((NewConfig envEmpty fsBaseEmpty none).1).isSome = true :=
  ⟨(C2_base_file_fatality envEmpty fsAllMissing none).1 rfl,
   (C2_base_file_fatality envEmpty fsBaseEmpty none).2 rfl⟩

/-- C3 (counterexample): with `SERVER_PORT` set (non-empty) in the process
environment but not parseable as an integer, the resolved port still
follows the JSON file layer — two file systems differing only in the base
port value yield different resolved ports — so the resolved value does not
equal (is not even determined by) the process-environment setting,
refuting the claim as stated. -/
theorem C3_counterexample :
    envPortAbc "SERVER_PORT" = "abc" ∧ ("abc" : String) ≠ "" ∧
    ((NewConfig envPortAbc (fsPort 8080) none).1.map
      (fun c => c.Server.Port)) = some 8080 ∧
    ((NewConfig envPortAbc (fsPort 9090) none).1.map
      (fun c => c.Server.Port)) = some 9090 := by
  exact ⟨rfl, by decide, by decide, by decide⟩

/-- C3 (amended): for every field whose `env` tag is set to a non-empty
value in the process environment that successfully coerces to the field
kind, the resolved value equals the coerced setting, regardless of what
any JSON file layer or the dotenv mapping specifies (neither `fs` nor
`dotenv` appears in the conclusion value). -/
theorem C3_env_setting_wins (env : String → String)
    (fs : String → FileContent) (dotenv : Option (String → Option String))
    (r : FRef) (s : String) (fv : FVal)
    (hbase : fileFails (fs base_config_file) = false)
    (henv : env (tagOf r) = s) (hs : s ≠ "")
    (hcv : coerceVal (kindOf r) s = some fv) :
    ∃ c, (NewConfig env fs dotenv).1 = some c ∧ getF c r = fv := by
  have hk : kindOf r ≠ .kStruct := by
    intro hk0; rw [hk0] at hcv; simp [coerceVal] at hcv
  obtain ⟨c3, hc3⟩ := Option.isSome_iff_exists.mp (fileLayer_isSome env fs hbase)
  refine ⟨(OverrideFromEnv dotenv env c3).1, ?_, ?_⟩
  · rw [NewConfig_fst, hc3]; rfl
  · rw [OverrideFromEnv_fst, processStruct_getF _ _ _ _ hk]
    simp [ovVal, resolveOverride, henv, hs, ovApply, hcv]

/-- Witness for C3 (amended) at a concrete input: `SERVER_PORT=7070` in
the process environment beats a base file that does not set the port. -/
theorem C3_witness :
    ∃ c, (NewConfig envPort7070 fsBaseEmpty none).1 = some c ∧
      getF c .sPort = .vi 7070 :=
  C3_env_setting_wins envPort7070 fsBaseEmpty none .sPort "7070" (.vi 7070)
    rfl rfl (by decide) (by decide)

/-- C4: for every (scalar) bound field the override value is resolved in a
strict per-field fallback chain in which empty string counts as unset: the
process environment value is used when non-empty (any dotenv content is
irrelevant); otherwise the dotenv entry is used when present and
non-empty; otherwise the field keeps exactly the value the file-layer
merge produced and no override is applied.  (The spec attaches field
bindings to scalar fields; the four struct-typed tags reach the
unsupported-kind branch and never change a value.) -/
theorem C4_fallback_chain (env : String → String)
    (fs : String → FileContent) (dotenv : Option (String → Option String))
    (r : FRef) (c3 c : Config)
    (hk : kindOf r ≠ .kStruct)
    (hfl : fileLayer env fs = some c3)
    (hres : (NewConfig env fs dotenv).1 = some c) :
    (env (tagOf r) ≠ "" →
      getF c r = ovApply (kindOf r) (env (tagOf r)) (getF c3 r)) ∧
    (env (tagOf r) = "" →
      ∀ v, dotenvMapOf dotenv (tagOf r) = some v → v ≠ "" →
        getF c r = ovApply (kindOf r) v (getF c3 r)) ∧
    (env (tagOf r) = "" →
      (dotenvMapOf dotenv (tagOf r) = none ∨
        dotenvMapOf dotenv (tagOf r) = some "") →
      getF c r = getF c3 r) := by
  have hmap := NewConfig_fst env fs dotenv
  rw [hres, hfl] at hmap
  simp only [Option.map_some', Option.some.injEq] at hmap
  have hchar : getF c r = ovVal env (dotenvMapOf dotenv) r (getF c3 r) := by
    rw [hmap, OverrideFromEnv_fst]
    exact processStruct_getF _ _ _ _ hk
  refine ⟨?_, ?_, ?_⟩
  · intro h; rw [hchar]; simp [ovVal, resolveOverride, h]
  · intro h v hv hvne; rw [hchar]; simp [ovVal, resolveOverride, h, hv, hvne]
  · intro h hd; rw [hchar]
    rcases hd with hd | hd <;> simp [ovVal, resolveOverride, h, hd]

/-- Witness for C4 at a concrete input exercising all three branches:
`SLOG_LEVEL=warn` from the process environment, `SLOG_FORMAT=json` from
the dotenv mapping, and `SLOG_OUTPUT` from neither. -/
theorem C4_witness :
    getF cWitC4 .lLevel = ovApply (kindOf .lLevel) "warn" (getF zeroDev .lLevel) ∧
    getF cWitC4 .lFormat = ovApply (kindOf .lFormat) "json" (getF zeroDev .lFormat) ∧
    getF cWitC4 .lOutput = getF zeroDev .lOutput := by
  refine ⟨?_, ?_, ?_⟩
  · exact (C4_fallback_chain envLevelWarn fsBaseEmpty (some dmFormatJson)
      .lLevel zeroDev cWitC4 (by decide) (by decide) (by decide)).1 (by decide)
  · exact (C4_fallback_chain envLevelWarn fsBaseEmpty (some dmFormatJson)
      .lFormat zeroDev cWitC4 (by decide) (by decide) (by decide)).2.1 (by decide)
      "json" (by decide) (by decide)
  · exact (C4_fallback_chain envLevelWarn fsBaseEmpty (some dmFormatJson)
      .lOutput zeroDev cWitC4 (by decide) (by decide) (by decide)).2.2 (by decide)
      (Or.inl (by decide))

/-- C5: `LoadFromJSONFile` merges a valid document with shallow
key-presence semantics on every scalar field: a present well-typed key
overwrites (even with an empty or zero value — the quantified `v` includes
them), and a field whose key is absent keeps exactly the value the target
held before the call, so successive layers never reset an omitted field. -/
theorem C5_key_presence_merge (d : JDoc) (cfg : Config) (r : FRef)
    (hk : kindOf r ≠ .kStruct) :
    (∀ v, jPresent d r = some v →
      getF (LoadFromJSONFile (.json d) cfg).1 r = v) ∧
    (jPresent d r = none →
      getF (LoadFromJSONFile (.json d) cfg).1 r = getF cfg r) := by
  rw [LoadFromJSONFile_fst_json]
  cases r
  case rLogger => simp [kindOf] at hk
  case rServer => simp [kindOf] at hk
  case rDatabase => simp [kindOf] at hk
  case rTest => simp [kindOf] at hk
  case rEnvironment =>
    simpa [jPresent, mergeJSON, getF] using
      appJF_top d.environment FVal.vs cfg.Environment
  case lLevel =>
    simpa [jPresent, mergeJSON, getF] using
      appJF_nested d.logger (fun j => j.level) mergeJLogger
        (fun l => l.Level) FVal.vs cfg.Logger (fun s b => rfl)
  case lFormat =>
    simpa [jPresent, mergeJSON, getF] using
      appJF_nested d.logger (fun j => j.format) mergeJLogger
        (fun l => l.Format) FVal.vs cfg.Logger (fun s b => rfl)
  case lOutput =>
    simpa [jPresent, mergeJSON, getF] using
      appJF_nested d.logger (fun j => j.output) mergeJLogger
        (fun l => l.Output) FVal.vs cfg.Logger (fun s b => rfl)
  case lAddSource =>
    simpa [jPresent, mergeJSON, getF] using
      appJF_nested d.logger (fun j => j.add_source) mergeJLogger
        (fun l => l.AddSource) FVal.vb cfg.Logger (fun s b => rfl)
  case sPort =>
    simpa [jPresent, mergeJSON, getF] using
      appJF_nested d.server (fun j => j.port) mergeJServer
        (fun s => s.Port) FVal.vi cfg.Server (fun s b => rfl)
  case sHost =>
    simpa [jPresent, mergeJSON, getF] using
      appJF_nested d.server (fun j => j.host) mergeJServer
        (fun s => s.Host) FVal.vs cfg.Server (fun s b => rfl)
  case sReadTimeout =>
    simpa [jPresent, mergeJSON, getF] using
      appJF_nested d.server (fun j => j.read_timeout) mergeJServer
        (fun s => s.ReadTimeout) FVal.vi cfg.Server (fun s b => rfl)
  case sWriteTimeout =>
    simpa [jPresent, mergeJSON, getF] using
      appJF_nested d.server (fun j => j.write_timeout) mergeJServer
        (fun s => s.WriteTimeout) FVal.vi cfg.Server (fun s b => rfl)
  case sShutdownTimeout =>
    simpa [jPresent, mergeJSON, getF] using
      appJF_nested d.server (fun j => j.shutdown_timeout) mergeJServer
        (fun s => s.ShutdownTimeout) FVal.vi cfg.Server (fun s b => rfl)
  case dHost =>
    simpa [jPresent, mergeJSON, getF] using
      appJF_nested d.database (fun j => j.host) mergeJDatabase
        (fun x => x.Host) FVal.vs cfg.Database (fun s b => rfl)
  case dPort =>
    simpa [jPresent, mergeJSON, getF] using
      appJF_nested d.database (fun j => j.port) mergeJDatabase
        (fun x => x.Port) FVal.vi cfg.Database (fun s b => rfl)
  case dUser =>
    simpa [jPresent, mergeJSON, getF] using
      appJF_nested d.database (fun j => j.user) mergeJDatabase
        (fun x => x.User) FVal.vs cfg.Database (fun s b => rfl)
  case dPassword =>
    simpa [jPresent, mergeJSON, getF] using
      appJF_nested d.database (fun j => j.password) mergeJDatabase
        (fun x => x.Password) FVal.vs cfg.Database (fun s b => rfl)
  case dName =>
    simpa [jPresent, mergeJSON, getF] using
      appJF_nested d.database (fun j => j.name) mergeJDatabase
        (fun x => x.Name) FVal.vs cfg.Database (fun s b => rfl)
  case dIsAtlas =>
    simpa [jPresent, mergeJSON, getF] using
      appJF_nested d.database (fun j => j.is_atlas) mergeJDatabase
        (fun x => x.IsAtlas) FVal.vb cfg.Database (fun s b => rfl)
  case dAtlasAppName =>
    simpa [jPresent, mergeJSON, getF] using
      appJF_nested d.database (fun j => j.atlas_app_name) mergeJDatabase
        (fun x => x.AtlasAppName) FVal.vs cfg.Database (fun s b => rfl)
  case tLabelDef =>
    simpa [jPresent, mergeJSON, getF] using
      appJF_nested d.test (fun j => j.label_def) mergeJTest
        (fun t => t.Label_default) FVal.vs cfg.Test (fun s b => rfl)
  case tLabelEnv =>
    simpa [jPresent, mergeJSON, getF] using
      appJF_nested d.test (fun j => j.label_env) mergeJTest
        (fun t => t.Label_env) FVal.vs cfg.Test (fun s b => rfl)
  case tLabelOverride =>
    simpa [jPresent, mergeJSON, getF] using
      appJF_nested d.test (fun j => j.label_override) mergeJTest
        (fun t => t.Label_override) FVal.vs cfg.Test (fun s b => rfl)

/-- Witness for C5 at a concrete input: a present empty-string `level` key
overwrites the default "debug", while the omitted `format` key leaves
"text" intact. -/
theorem C5_witness :
    getF (LoadFromJSONFile (.json dWitC5) NewDefaultConfig).1 .lLevel = .vs "" ∧
    getF (LoadFromJSONFile (.json dWitC5) NewDefaultConfig).1 .lFormat =
      getF NewDefaultConfig .lFormat :=
  ⟨(C5_key_presence_merge dWitC5 NewDefaultConfig .lLevel (by decide)).1
      (.vs "") (by decide),
   (C5_key_presence_merge dWitC5 NewDefaultConfig .lFormat (by decide)).2
      (by decide)⟩

/-- C6: when an override value fails coercion to the field kind (boolean
or base-10 integer parse failure, or the unsupported struct kind),
`setField` reports failure and leaves the whole configuration — that field
and every other — exactly as it was; the functions are total (no panic)
and `NewConfig` still succeeds whenever its base file loads. -/
theorem C6_coercion_failure_safe (r : FRef) (raw : String)
    (hfail : coerceVal (kindOf r) raw = none) :
    (∀ c : Config, (setField c r raw).1 = c ∧ (setField c r raw).2.1 = false) ∧
    (∀ (env : String → String) (fs : String → FileContent)
        (dotenv : Option (String → Option String)),
      fileFails (fs base_config_file) = false →
      ((NewConfig env fs dotenv).1).isSome = true) := by
  constructor
  · intro c
    cases hk : kindOf r with
    | kString => rw [hk] at hfail; simp [coerceVal] at hfail
    | kStruct => simp [setField, hk]
    | kInt =>
        have ha : goAtoi raw = none := by
          rw [hk] at hfail; simpa [coerceVal] using hfail
        simp [setField, hk, ha]
    | kBool =>
        have hb : goParseBool raw = none := by
          rw [hk] at hfail; simpa [coerceVal] using hfail
        simp [setField, hk, hb]
  · intro env fs dotenv hbase
    exact newConfig_isSome_of_base env fs dotenv hbase

/-- Witness for C6 at a concrete input: the non-numeric "abc" for the
integer port field changes nothing and resolution still succeeds with
`SERVER_PORT=abc` set. -/
theorem C6_witness :
    (setField NewDefaultConfig .sPort "abc").1 = NewDefaultConfig ∧
    ((NewConfig envPortAbc fsBaseEmpty none).1).isSome = true :=
  ⟨((C6_coercion_failure_safe .sPort "abc" (by decide)).1 NewDefaultConfig).1,
   (C6_coercion_failure_safe .sPort "abc" (by decide)).2 envPortAbc
      fsBaseEmpty none rfl⟩

/-- C7: a failing environment-specific or local file never makes
`NewConfig` return an error — it still yields a configuration — and the
failure is logged at warning level for the environment-specific file and at
debug level for the local file, after which resolution continues. -/
theorem C7_optional_files_tolerated (env : String → String)
    (fs : String → FileContent) (dotenv : Option (String → Option String))
    (hbase : fileFails (fs base_config_file) = false) :
    ((NewConfig env fs dotenv).1).isSome = true ∧
    (fileFails
        (fs (environment_config_file
          (determineEnvironment (env "ENVIRONMENT")))) = true →
      (LogLevel.warn,
        "Unable to load environment-specific configuration - using base config")
        ∈ (NewConfig env fs dotenv).2) ∧
    (fileFails (fs local_config_file) = true →
      (LogLevel.debug,
        "Unable to load local configuration - this is normal for non-development environments")
        ∈ (NewConfig env fs dotenv).2) := by
  refine ⟨newConfig_isSome_of_base env fs dotenv hbase, ?_, ?_⟩
  · intro h2
    simp [NewConfig, LoadFromJSONFile_err_isSome, hbase, h2,
      OverrideFromEnv_err, List.mem_append]
  · intro h3
    simp [NewConfig, LoadFromJSONFile_err_isSome, hbase, h3,
      OverrideFromEnv_err, List.mem_append]

/-- Witness for C7 at a concrete input: a malformed environment-specific
file and a missing local file are both reported in the logs at their
levels and a configuration is still produced. -/
theorem C7_witness :
    ((NewConfig envEmpty fsEnvMalformed none).1).isSome = true ∧
    (LogLevel.warn,
      "Unable to load environment-specific configuration - using base config")
      ∈ (NewConfig envEmpty fsEnvMalformed none).2 ∧
    (LogLevel.debug,
      "Unable to load local configuration - this is normal for non-development environments")
      ∈ (NewConfig envEmpty fsEnvMalformed none).2 := by
  have h := C7_optional_files_tolerated envEmpty fsEnvMalformed none rfl
  exact ⟨h.1, h.2.1 (by decide), h.2.2 (by decide)⟩

/-- C8: `OverrideFromEnv` returns `nil` for every dotenv read result,
every process environment and every configuration (a failed dotenv read
only yields the empty mapping; per-field failures are only logged), so the
error-propagation branch for this step in `NewConfig` is never taken:
whenever the base file loads, `NewConfig` succeeds. -/
theorem C8_override_step_never_fails :
    (∀ (dotenv : Option (String → Option String)) (env : String → String)
        (c : Config), (OverrideFromEnv dotenv env c).2.1 = none) ∧
    (∀ (env : String → String) (fs : String → FileContent)
        (dotenv : Option (String → Option String)),
      fileFails (fs base_config_file) = false →
      ((NewConfig env fs dotenv).1).isSome = true) :=
  ⟨fun dotenv env c => OverrideFromEnv_err dotenv env c,
   fun env fs dotenv h => newConfig_isSome_of_base env fs dotenv h⟩

/-- Witness for C8 at concrete inputs, including a failed dotenv read. -/
theorem C8_witness :
    (OverrideFromEnv none envEmpty zeroConfig).2.1 = none ∧
    ((NewConfig envEmpty fsBaseEmpty none).1).isSome = true :=
  ⟨C8_override_step_never_fails.1 none envEmpty zeroConfig,
   C8_override_step_never_fails.2 envEmpty fsBaseEmpty none rfl⟩

/-- C9: a non-empty `ENVIRONMENT` value outside the valid set still lets
`NewConfig` succeed (given a loadable base file); the file paths are
computed from the substituted "development", yet the returned
configuration carries the raw invalid value, because the final override
pass re-applies `ENVIRONMENT` through its `env` tag without
re-validation. -/
theorem C9_invalid_environment_leaks (v : String) (env : String → String)
    (fs : String → FileContent) (dotenv : Option (String → Option String))
    (henv : env "ENVIRONMENT" = v) (hv : v ≠ "")
    (hvalid : v ∉ validEnvironments)
    (hbase : fileFails (fs base_config_file) = false) :
    determineEnvironment (env "ENVIRONMENT") = "development" ∧
    environment_config_file (determineEnvironment (env "ENVIRONMENT")) =
      "configs/config.development.json" ∧
    ∃ c, (NewConfig env fs dotenv).1 = some c ∧ c.Environment = v := by
  have hde : determineEnvironment (env "ENVIRONMENT") = "development" := by
    rw [henv]; simp [determineEnvironment, hvalid]
  refine ⟨hde, by rw [hde]; decide, ?_⟩
  obtain ⟨c3, hc3⟩ := Option.isSome_iff_exists.mp (fileLayer_isSome env fs hbase)
  refine ⟨(OverrideFromEnv dotenv env c3).1, ?_, ?_⟩
  · rw [NewConfig_fst, hc3]; rfl
  · have hchar : getF (OverrideFromEnv dotenv env c3).1 .rEnvironment =
        ovVal env (dotenvMapOf dotenv) .rEnvironment (getF c3 .rEnvironment) := by
      rw [OverrideFromEnv_fst]
      exact processStruct_getF _ _ _ _ (by decide)
    have h2 : getF (OverrideFromEnv dotenv env c3).1 .rEnvironment = .vs v := by
      rw [hchar]
      simp [ovVal, resolveOverride, tagOf, henv, hv, ovApply, coerceVal, kindOf]
    simpa [getF] using h2

/-- Witness for C9 at a concrete input: `ENVIRONMENT=prod` is invalid, the
environment file path uses `development`, and the resolved configuration
reports environment "prod". -/
theorem C9_witness :
    determineEnvironment (envProd "ENVIRONMENT") = "development" ∧
    environment_config_file (determineEnvironment (envProd "ENVIRONMENT")) =
      "configs/config.development.json" ∧
    ∃ c, (NewConfig envProd fsBaseEmpty none).1 = some c ∧
      c.Environment = "prod" :=
  C9_invalid_environment_leaks "prod" envProd fsBaseEmpty none rfl
    (by decide) (by decide) rfl

/-- C10: `LoadFromJSONFile` is not atomic with respect to errors: `dBad` is
syntactically valid JSON with one type-mismatched key (`server.port`) next
to a well-typed one (`server.host`); the call returns a non-nil error yet
has already written `server.host` into the target, and when such a file is
the optional environment-specific layer of `NewConfig`, the layer is
reported as failed yet its well-typed key reaches the final
configuration. -/
theorem C10_error_with_partial_merge :
    (LoadFromJSONFile (.json dBad) zeroConfig).2.1 = some .parseError ∧
    (LoadFromJSONFile (.json dBad) zeroConfig).1.Server.Host = "h9" ∧
    (LoadFromJSONFile (.json dBad) zeroConfig).1 ≠ zeroConfig ∧
    fileFails (fsEnvBad (environment_config_file "development")) = true ∧
    ((NewConfig envEmpty fsEnvBad none).1.map (fun c => c.Server.Host)) =
      some "h9" := by
  exact ⟨by decide, by decide, by decide, by decide, by decide⟩

end Goedu
